import Mathlib

/-!
Shallow embedding of `seismic-canvas` (file `xyz_axis.py`): the `XYZAxis`
legend widget — its drag interaction state (`anchor`, `offset`, `loc`,
highlight feedback) and its camera-alignment transform `_update_axis`,
which drives a vispy `MatrixTransform`.

Modelling conventions:
* Screen coordinates and matrix entries are exact rationals (`ℚ`),
  idealising the source's floating-point arithmetic.
* vispy's `MatrixTransform` uses the row-vector convention: every method
  post-multiplies the stored 4×4 matrix (`matrix = matrix @ op`) and a
  point `p` is mapped as the row vector `p @ matrix`, so the operation
  applied *first* in the code acts *first* on points.
* Rotation angles enter vispy's `rotate(angle, axis)` only through
  `cos(angle)` and `sin(angle)`; since those are transcendental, the
  camera reading is embedded by the cosine/sine pairs of its azimuth and
  elevation.  The fixed `rotate(90, (1,0,0))` call becomes the pair
  `(0, 1)` (the exact value of `(cos 90°, sin 90°)`).
* Python `None` is `Option.none`; an operation that would raise a
  `TypeError` in the source (e.g. `ndarray - None`) returns `none`.
* `XYZAxis.loc` starts life as a Python tuple and becomes a numpy array
  after the first drag commit (`self.loc += self.offset` with an array
  offset); the flag `locIsArray` records this, because `tuple + 0`
  raises a `TypeError` while `array + 0` does not.
* `self.offset` is initialised to, and reset to, the Python integer `0`;
  that scalar sentinel is embedded as `none`, a committed 2-vector offset
  as `some v`.
-/

namespace SeismicCanvas

/-- A 2D screen point / vector (numpy arrays of length 2 in the source). -/
abbrev Vec2 := ℚ × ℚ

/-- A 4×4 affine matrix in vispy's row-vector convention. -/
abbrev Mat4 := Matrix (Fin 4) (Fin 4) ℚ

/-- Source `vispy.util.transforms.scale((sx, sy, sz))`: diagonal scaling matrix. -/
def scaleMat (sx sy sz : ℚ) : Mat4 :=
  !![sx, 0, 0, 0;
     0, sy, 0, 0;
     0, 0, sz, 0;
     0, 0, 0, 1]

/-- Source `vispy.util.transforms.translate((tx, ty, tz))`: identity with the
offset in the bottom row (row-vector convention). -/
def translateMat (tx ty tz : ℚ) : Mat4 :=
  !![1, 0, 0, 0;
     0, 1, 0, 0;
     0, 0, 1, 0;
     tx, ty, tz, 1]

/-- Source `vispy.util.transforms.rotate(angle, (1, 0, 0))` with `c = cos angle`,
`s = sin angle` (the general axis-angle matrix of the source, specialised
to the unit X axis, transpose included). -/
def rotXMat (c s : ℚ) : Mat4 :=
  !![1, 0, 0, 0;
     0, c, s, 0;
     0, -s, c, 0;
     0, 0, 0, 1]

/-- Source `vispy.util.transforms.rotate(angle, (0, 1, 0))` with `c = cos angle`,
`s = sin angle` (specialised to the unit Y axis, transpose included). -/
def rotYMat (c s : ℚ) : Mat4 :=
  !![c, 0, -s, 0;
     0, 1, 0, 0;
     s, 0, c, 0;
     0, 0, 0, 1]

/-- vispy `MatrixTransform`: a mutable 4×4 matrix. -/
structure MatrixTransform where
  matrix : Mat4

/-- Source `MatrixTransform.reset()`: back to the identity. -/
def MatrixTransform.reset (_t : MatrixTransform) : MatrixTransform := ⟨1⟩

/-- Source `MatrixTransform.scale((sx, sy, sz))` (no center argument in the
source): post-multiply by the scaling matrix. -/
def MatrixTransform.scale (t : MatrixTransform) (sx sy sz : ℚ) : MatrixTransform :=
  ⟨t.matrix * scaleMat sx sy sz⟩

/-- Source `MatrixTransform.rotate(angle, (1, 0, 0))`, angle given by its
cosine/sine pair. -/
def MatrixTransform.rotateX (t : MatrixTransform) (c s : ℚ) : MatrixTransform :=
  ⟨t.matrix * rotXMat c s⟩

/-- Source `MatrixTransform.rotate(angle, (0, 1, 0))`, angle given by its
cosine/sine pair. -/
def MatrixTransform.rotateY (t : MatrixTransform) (c s : ℚ) : MatrixTransform :=
  ⟨t.matrix * rotYMat c s⟩

/-- Source `MatrixTransform.translate(pos)` with a 2D `pos` (padded with z = 0 by
`as_vec4`, as for `self.loc` in the source). -/
def MatrixTransform.translate (t : MatrixTransform) (p : Vec2) : MatrixTransform :=
  ⟨t.matrix * translateMat p.1 p.2 0⟩

/-- Source `MatrixTransform.map(coords)` on one homogeneous point: the row
vector–matrix product `coords @ matrix`. -/
def MatrixTransform.mapPoint (t : MatrixTransform) (v : Fin 4 → ℚ) : Fin 4 → ℚ :=
  Matrix.vecMul v t.matrix

/-- The turntable camera reading used by `_update_axis`
(`self.parent.camera.azimuth` / `.elevation`), embedded by the
cosine/sine of each angle. -/
structure Camera where
  cosAzimuth : ℚ
  sinAzimuth : ℚ
  cosElevation : ℚ
  sinElevation : ℚ

/-- The `XYZAxis` widget state (fields set in `__init__`). -/
structure XYZAxis where
  /-- Source `self.loc`: committed anchor position (top-left screen coords). -/
  loc : Vec2
  /-- Whether `self.loc` currently holds a numpy array (after a drag
  commit) rather than the construction-time Python tuple. -/
  locIsArray : Bool
  /-- Source `self.size`: desired on-screen size. -/
  size : ℚ
  /-- Source `self.seismic_coord_system`: z-axis-down seismic convention flag. -/
  seismic_coord_system : Bool
  /-- Source `self.highlight.center`. -/
  highlight_center : Vec2
  /-- Source `self.highlight._mesh.color` (RGBA). -/
  highlight_color : ℚ × ℚ × ℚ × ℚ
  /-- Source `self.anchor`: `none` is Python `None`, `some a` the captured
  click-minus-loc offset. -/
  anchor : Option Vec2
  /-- Source `self.offset`: `none` is the integer `0` sentinel, `some d` a
  pending drag displacement. -/
  offset : Option Vec2
  /-- Source `self.transform`, the `MatrixTransform` aligning the legend. -/
  transform : MatrixTransform
  /-- Source `self.parent`, reduced to the turntable camera `_update_axis`
  reads; `none` when the widget is not attached to a viewport. -/
  parent : Option Camera

/-- Source `XYZAxis._update_axis`: no-op when `self.parent is None`; otherwise
reset the transform and rebuild it — optional seismic flip, fixed 90°
X rotation, azimuth about Y, elevation about X, scale `(size, size,
0.001)`, translate by `loc`. -/
def XYZAxis.updateAxis (st : XYZAxis) : XYZAxis :=
  match st.parent with
  | none => st
  | some cam =>
      let tr := st.transform.reset
      let tr := if st.seismic_coord_system then tr.scale 1 (-1) (-1) else tr
      let tr := tr.rotateX 0 1
      let tr := tr.rotateY cam.cosAzimuth cam.sinAzimuth
      let tr := tr.rotateX cam.cosElevation cam.sinElevation
      let tr := tr.scale st.size st.size (1 / 1000)
      let tr := tr.translate st.loc
      { st with transform := tr }

/-- Source `XYZAxis.__init__(loc, size, ..., seismic_coord_system, parent)`:
highlight centred at `loc` with the translucent yellow `(1, 1, 0, 0.5)`,
`anchor = None`, `offset = 0`, identity transform, then `_update_axis`. -/
def XYZAxis.init (loc : Vec2) (size : ℚ) (seismic : Bool)
    (parent : Option Camera) : XYZAxis :=
  XYZAxis.updateAxis
    { loc := loc
      locIsArray := false
      size := size
      seismic_coord_system := seismic
      highlight_center := loc
      highlight_color := (1, 1, 0, 1 / 2)
      anchor := none
      offset := none
      transform := ⟨1⟩
      parent := parent }

/-- Source `XYZAxis.on_mouse_move`: recompute the alignment while button-1
dragging, otherwise do nothing. -/
def XYZAxis.on_mouse_move (st : XYZAxis) (button1Dragging : Bool) : XYZAxis :=
  if button1Dragging then st.updateAxis else st

/-- Source `XYZAxis.set_anchor(mouse_press_event)`: capture the relative anchor
`click_pos - self.loc`. -/
def XYZAxis.set_anchor (st : XYZAxis) (click_pos : Vec2) : XYZAxis :=
  { st with anchor := some (click_pos - st.loc) }

/-- Source `XYZAxis.drag_visual_node(mouse_move_event)`: with `self.anchor`
still `None` the source evaluates `pos - None` and raises a `TypeError`
(`none` here); otherwise store the pending offset and move the highlight
to the new centre with the solid yellow `(1, 1, 0, 1.0)`. -/
def XYZAxis.drag_visual_node (st : XYZAxis) (pos : Vec2) : Option XYZAxis :=
  match st.anchor with
  | none => none
  | some a =>
      let new_center := pos - a
      some { st with
              offset := some (new_center - st.loc)
              highlight_center := new_center
              highlight_color := (1, 1, 0, 1) }

/-- Source `XYZAxis.reset_highlight()`: highlight back to `self.loc` with the
translucent yellow; `self.anchor` and `self.offset` are left untouched. -/
def XYZAxis.reset_highlight (st : XYZAxis) : XYZAxis :=
  { st with
      highlight_center := st.loc
      highlight_color := (1, 1, 0, 1 / 2) }

/-- Source `XYZAxis.update_location()`: `self.loc += self.offset`, recompute the
alignment, then clear `anchor` and `offset`.  With the scalar `0`
sentinel (`offset = none`) the addition is `loc + 0`, which raises a
`TypeError` when `loc` is still the construction-time tuple and is the
identity when `loc` is already a numpy array. -/
def XYZAxis.update_location (st : XYZAxis) : Option XYZAxis :=
  match st.offset with
  | some d =>
      let st1 := { st with loc := st.loc + d, locIsArray := true }
      let st2 := st1.updateAxis
      some { st2 with anchor := none, offset := none }
  | none =>
      if st.locIsArray then
        let st2 := st.updateAxis
        some { st2 with anchor := none, offset := none }
      else
        none

/-- A run of consecutive `drag_visual_node` calls (pointer-move stream),
threading the possible `TypeError`. -/
def XYZAxis.dragMoves (st : XYZAxis) (ps : List Vec2) : Option XYZAxis :=
  ps.foldl (fun acc p => acc.bind (fun s => s.drag_visual_node p)) (some st)

/-- Modelled from the spec: the pointer-down dispatch is not in
`xyz_axis.py` (the host canvas performs the picking before calling
`set_anchor`); per the spec it hit-tests the click against the selection
highlight's circular extent centred at `anchor_position` with radius
`display_size`, and only then begins the drag. -/
def XYZAxis.on_pointer_down (st : XYZAxis) (p : Vec2) : XYZAxis :=
  if (p.1 - st.loc.1) * (p.1 - st.loc.1) + (p.2 - st.loc.2) * (p.2 - st.loc.2) ≤
      st.size * st.size then
    st.set_anchor p
  else
    st

/-! ### Helper lemmas -/

@[ext] lemma MatrixTransform.ext (a b : MatrixTransform)
    (h : a.matrix = b.matrix) : a = b := by
  cases a; cases b; simpa using h

@[simp] lemma MatrixTransform.reset_eq (t : MatrixTransform) : t.reset = ⟨1⟩ := rfl

@[simp] lemma updateAxis_loc (st : XYZAxis) : st.updateAxis.loc = st.loc := by
  cases h : st.parent <;> simp [XYZAxis.updateAxis, h]

@[simp] lemma updateAxis_locIsArray (st : XYZAxis) :
    st.updateAxis.locIsArray = st.locIsArray := by
  cases h : st.parent <;> simp [XYZAxis.updateAxis, h]

@[simp] lemma updateAxis_size (st : XYZAxis) : st.updateAxis.size = st.size := by
  cases h : st.parent <;> simp [XYZAxis.updateAxis, h]

@[simp] lemma updateAxis_seismic (st : XYZAxis) :
    st.updateAxis.seismic_coord_system = st.seismic_coord_system := by
  cases h : st.parent <;> simp [XYZAxis.updateAxis, h]

@[simp] lemma updateAxis_highlight_center (st : XYZAxis) :
    st.updateAxis.highlight_center = st.highlight_center := by
  cases h : st.parent <;> simp [XYZAxis.updateAxis, h]

@[simp] lemma updateAxis_highlight_color (st : XYZAxis) :
    st.updateAxis.highlight_color = st.highlight_color := by
  cases h : st.parent <;> simp [XYZAxis.updateAxis, h]

@[simp] lemma updateAxis_anchor (st : XYZAxis) : st.updateAxis.anchor = st.anchor := by
  cases h : st.parent <;> simp [XYZAxis.updateAxis, h]

@[simp] lemma updateAxis_offset (st : XYZAxis) : st.updateAxis.offset = st.offset := by
  cases h : st.parent <;> simp [XYZAxis.updateAxis, h]

@[simp] lemma updateAxis_parent (st : XYZAxis) : st.updateAxis.parent = st.parent := by
  cases h : st.parent <;> simp [XYZAxis.updateAxis, h]

/-- The transform `_update_axis` builds when a camera is attached,
written as the explicit matrix product (left-to-right in application
order under the row-vector convention). -/
lemma updateAxis_transform_attached (st : XYZAxis) (cam : Camera)
    (h : st.parent = some cam) :
    st.updateAxis.transform.matrix =
      (if st.seismic_coord_system then scaleMat 1 (-1) (-1) else 1) *
        rotXMat 0 1 *
        rotYMat cam.cosAzimuth cam.sinAzimuth *
        rotXMat cam.cosElevation cam.sinElevation *
        scaleMat st.size st.size (1 / 1000) *
        translateMat st.loc.1 st.loc.2 0 := by
  cases hs : st.seismic_coord_system <;>
    simp [XYZAxis.updateAxis, h, hs, MatrixTransform.reset, MatrixTransform.scale,
      MatrixTransform.rotateX, MatrixTransform.rotateY, MatrixTransform.translate,
      Matrix.one_mul]

@[simp] lemma init_loc (l : Vec2) (s : ℚ) (b : Bool) (p : Option Camera) :
    (XYZAxis.init l s b p).loc = l := by simp [XYZAxis.init]

@[simp] lemma init_locIsArray (l : Vec2) (s : ℚ) (b : Bool) (p : Option Camera) :
    (XYZAxis.init l s b p).locIsArray = false := by simp [XYZAxis.init]

@[simp] lemma init_size (l : Vec2) (s : ℚ) (b : Bool) (p : Option Camera) :
    (XYZAxis.init l s b p).size = s := by simp [XYZAxis.init]

@[simp] lemma init_anchor (l : Vec2) (s : ℚ) (b : Bool) (p : Option Camera) :
    (XYZAxis.init l s b p).anchor = none := by simp [XYZAxis.init]

@[simp] lemma init_offset (l : Vec2) (s : ℚ) (b : Bool) (p : Option Camera) :
    (XYZAxis.init l s b p).offset = none := by simp [XYZAxis.init]

@[simp] lemma set_anchor_anchor (st : XYZAxis) (c : Vec2) :
    (st.set_anchor c).anchor = some (c - st.loc) := rfl

@[simp] lemma set_anchor_loc (st : XYZAxis) (c : Vec2) :
    (st.set_anchor c).loc = st.loc := rfl

/-- Source `drag_visual_node` with a captured anchor: the explicit result. -/
lemma drag_visual_node_eq (st : XYZAxis) (a p : Vec2) (h : st.anchor = some a) :
    st.drag_visual_node p =
      some { st with
              offset := some (p - a - st.loc)
              highlight_center := p - a
              highlight_color := (1, 1, 0, 1) } := by
  simp [XYZAxis.drag_visual_node, h]

lemma foldl_drag_none (ps : List Vec2) :
    ps.foldl (fun acc p => acc.bind (fun s => XYZAxis.drag_visual_node s p))
      (none : Option XYZAxis) = none := by
  induction ps with
  | nil => rfl
  | cons p ps ih => simpa using ih

lemma dragMoves_append (st : XYZAxis) (ms : List Vec2) (q : Vec2) :
    st.dragMoves (ms ++ [q]) =
      (st.dragMoves ms).bind (fun s => s.drag_visual_node q) := by
  simp [XYZAxis.dragMoves, List.foldl_append]

/-- While the anchor is captured, any pointer-move stream succeeds and
leaves the anchor and the committed location untouched. -/
lemma dragMoves_some (a : Vec2) (ps : List Vec2) :
    ∀ st : XYZAxis, st.anchor = some a →
      ∃ st', st.dragMoves ps = some st' ∧ st'.anchor = some a ∧ st'.loc = st.loc := by
  induction ps with
  | nil => exact fun st h => ⟨st, rfl, h, rfl⟩
  | cons p ps ih =>
      intro st h
      obtain ⟨st', h1, h2, h3⟩ :=
        ih { st with
              offset := some (p - a - st.loc)
              highlight_center := p - a
              highlight_color := (1, 1, 0, 1) } h
      refine ⟨st', ?_, h2, h3⟩
      show List.foldl _ ((some st).bind (fun s => s.drag_visual_node p)) ps = some st'
      rw [Option.some_bind, drag_visual_node_eq st a p h]
      exact h1

/-- The linear (rotation-and-scale) part of an affine 4×4 matrix: its
upper-left 3×3 block. -/
def linearPart (M : Mat4) : Matrix (Fin 3) (Fin 3) ℚ :=
  !![M 0 0, M 0 1, M 0 2;
     M 1 0, M 1 1, M 1 2;
     M 2 0, M 2 1, M 2 2]

/-- A 3×3 diagonal scale, for comparing linear parts. -/
def scale3Mat (sx sy sz : ℚ) : Matrix (Fin 3) (Fin 3) ℚ :=
  !![sx, 0, 0;
     0, sy, 0;
     0, 0, sz]

lemma linearPart_flip_mul (M : Mat4) :
    linearPart (scaleMat 1 (-1) (-1) * M) =
      scale3Mat 1 (-1) (-1) * linearPart M := by
  ext i j
  fin_cases i <;> fin_cases j <;>
    simp [linearPart, scale3Mat, scaleMat, Matrix.mul_apply,
      Fin.sum_univ_four, Fin.sum_univ_three]

lemma vecMul_e3_one :
    Matrix.vecMul ![0, 0, 0, 1] (1 : Mat4) = ![0, 0, 0, 1] := by
  funext j
  fin_cases j <;>
    simp [Matrix.vecMul, Matrix.dotProduct, Fin.sum_univ_four, Matrix.one_apply,
      Matrix.vecHead, Matrix.vecTail]

lemma vecMul_e3_scale (sx sy sz : ℚ) :
    Matrix.vecMul ![0, 0, 0, 1] (scaleMat sx sy sz) = ![0, 0, 0, 1] := by
  funext j
  fin_cases j <;>
    simp [Matrix.vecMul, Matrix.dotProduct, Fin.sum_univ_four, scaleMat,
      Matrix.vecHead, Matrix.vecTail]

lemma vecMul_e3_rotX (c s : ℚ) :
    Matrix.vecMul ![0, 0, 0, 1] (rotXMat c s) = ![0, 0, 0, 1] := by
  funext j
  fin_cases j <;>
    simp [Matrix.vecMul, Matrix.dotProduct, Fin.sum_univ_four, rotXMat,
      Matrix.vecHead, Matrix.vecTail]

lemma vecMul_e3_rotY (c s : ℚ) :
    Matrix.vecMul ![0, 0, 0, 1] (rotYMat c s) = ![0, 0, 0, 1] := by
  funext j
  fin_cases j <;>
    simp [Matrix.vecMul, Matrix.dotProduct, Fin.sum_univ_four, rotYMat,
      Matrix.vecHead, Matrix.vecTail]

lemma vecMul_e3_translate (tx ty tz : ℚ) :
    Matrix.vecMul ![0, 0, 0, 1] (translateMat tx ty tz) = ![tx, ty, tz, 1] := by
  funext j
  fin_cases j <;>
    simp [Matrix.vecMul, Matrix.dotProduct, Fin.sum_univ_four, translateMat,
      Matrix.vecHead, Matrix.vecTail]

/-- With a camera attached, the rebuilt transform maps the homogeneous
local origin `(0, 0, 0, 1)` to the committed anchor position — the
translation row is untouched by the rotation and scale factors. -/
lemma origin_maps_to_loc (st : XYZAxis) (cam : Camera) (h : st.parent = some cam) :
    st.updateAxis.transform.mapPoint ![0, 0, 0, 1] =
      ![st.loc.1, st.loc.2, 0, 1] := by
  simp only [MatrixTransform.mapPoint]
  rw [updateAxis_transform_attached st cam h]
  simp only [← Matrix.vecMul_vecMul]
  cases hs : st.seismic_coord_system
  · simp only [hs, Bool.false_eq_true, if_false]
    rw [vecMul_e3_one, vecMul_e3_rotX, vecMul_e3_rotY, vecMul_e3_rotX,
      vecMul_e3_scale, vecMul_e3_translate]
  · simp only [hs, if_true]
    rw [vecMul_e3_scale, vecMul_e3_rotX, vecMul_e3_rotY, vecMul_e3_rotX,
      vecMul_e3_scale, vecMul_e3_translate]

/-! ### Claim theorems -/

/-- Claim C1: with a parent camera attached, `_update_axis` produces
exactly the matrix obtained by composing, in this exact order starting
from the identity: a pre-scale by `(1, -1, -1)` iff the seismic
convention flag is set, the fixed 90° rotation about X, the azimuth
rotation about Y, the elevation rotation about X, the scale
`(size, size, 0.001)`, and the translation by `loc`. -/
theorem c1_update_axis_composition (st : XYZAxis) (cam : Camera) :
    (({st with parent := some cam}).updateAxis).transform.matrix =
      (if st.seismic_coord_system then scaleMat 1 (-1) (-1) else 1) *
        rotXMat 0 1 *
        rotYMat cam.cosAzimuth cam.sinAzimuth *
        rotXMat cam.cosElevation cam.sinElevation *
        scaleMat st.size st.size (1 / 1000) *
        translateMat st.loc.1 st.loc.2 0 := by
  simpa using updateAxis_transform_attached {st with parent := some cam} cam rfl

/-- Claim C7: with no parent viewport/camera attached, `_update_axis`
returns immediately and leaves the whole widget state (the transform
included) unchanged. -/
theorem c7_update_axis_detached_noop (st : XYZAxis) :
    ({st with parent := none} : XYZAxis).updateAxis = {st with parent := none} := by
  simp [XYZAxis.updateAxis]

/-- Claim C9: the recomputed transform is a deterministic function of
`loc`, `size`, the seismic flag and the camera reading, with no
dependence on the prior transform contents (the recompute resets to the
identity first): two states agreeing on those inputs — whatever their
other fields, prior transform included — recompute to identical
matrices, and recomputing twice yields the same matrix as once. -/
theorem c9_update_axis_deterministic (st1 st2 : XYZAxis) (l : Vec2) (s : ℚ)
    (flag : Bool) (cam : Camera) :
    (({ st1 with
        loc := l, size := s, seismic_coord_system := flag,
        parent := some cam }).updateAxis).transform =
      (({ st2 with
        loc := l, size := s, seismic_coord_system := flag,
        parent := some cam }).updateAxis).transform ∧
    (({ st1 with
        loc := l, size := s, seismic_coord_system := flag,
        parent := some cam }).updateAxis).updateAxis.transform =
      (({ st1 with
        loc := l, size := s, seismic_coord_system := flag,
        parent := some cam }).updateAxis).transform := by
  constructor
  · simp [XYZAxis.updateAxis]
  · have h1 : (({ st1 with
        loc := l, size := s, seismic_coord_system := flag,
        parent := some cam }).updateAxis).parent = some cam := by simp
    apply MatrixTransform.ext
    rw [updateAxis_transform_attached _ cam h1,
      updateAxis_transform_attached _ cam rfl]
    simp

/-- Claim C2: a full drag session — `set_anchor` at click `c`, a
non-empty run of `drag_visual_node` moves ending at `q`, then
`update_location` — moves the committed anchor by exactly the pointer's
net displacement (`loc + (q - c)`) and clears the session fields; in
particular the spec's concrete sequence: begin at `(10,10)` with anchor
`(60,60)` gives `anchor = (-50,-50)`, continuing to `(40,40)` gives
highlight centre `(90,90)`, and ending commits `loc = (90,90)` with the
session fields cleared. -/
theorem c2_drag_session_net_displacement :
    (∀ (st : XYZAxis) (c q : Vec2) (ms : List Vec2),
      ∃ st2 st3,
        (st.set_anchor c).dragMoves (ms ++ [q]) = some st2 ∧
        st2.update_location = some st3 ∧
        st3.loc = st.loc + (q - c) ∧ st3.anchor = none ∧ st3.offset = none) ∧
    ((XYZAxis.init (60, 60) 50 true none).set_anchor (10, 10)).anchor =
      some (-50, -50) ∧
    ((((XYZAxis.init (60, 60) 50 true none).set_anchor (10, 10)).drag_visual_node
        (40, 40)).map XYZAxis.highlight_center) = some (90, 90) ∧
    (((((XYZAxis.init (60, 60) 50 true none).set_anchor (10, 10)).drag_visual_node
        (40, 40)).bind XYZAxis.update_location).map
        (fun s => (s.loc, s.anchor, s.offset))) = some ((90, 90), none, none) := by
  have hc : ((XYZAxis.init (60, 60) 50 true none).set_anchor (10, 10)).anchor =
      some ((10, 10) - (60, 60)) := by simp
  refine ⟨?_, ?_, ?_, ?_⟩
  · intro st c q ms
    obtain ⟨st2, h2, ha, hl⟩ :=
      dragMoves_some (c - st.loc) ms (st.set_anchor c) rfl
    have hl2 : st2.loc = st.loc := hl
    have happ : (st.set_anchor c).dragMoves (ms ++ [q]) = st2.drag_visual_node q := by
      rw [dragMoves_append, h2, Option.some_bind]
    refine ⟨_, _, happ.trans (drag_visual_node_eq st2 (c - st.loc) q ha), rfl,
      ?_, by simp [XYZAxis.update_location], by simp [XYZAxis.update_location]⟩
    simp [XYZAxis.update_location, hl2]
    abel_nf
  · rw [hc]
    norm_num [Prod.ext_iff]
  · rw [drag_visual_node_eq _ ((10, 10) - (60, 60)) (40, 40) hc]
    norm_num [Prod.ext_iff]
  · rw [drag_visual_node_eq _ ((10, 10) - (60, 60)) (40, 40) hc, Option.some_bind]
    norm_num [XYZAxis.update_location, Prod.ext_iff]

/-- Claim C3: a pointer-move during an active drag session updates only
the highlight centre, the highlight colour and the pending offset; the
committed `loc`, the display `size`, the alignment transform and the
captured anchor are all left unchanged. -/
theorem c3_continue_drag_feedback_only (st : XYZAxis) (a p : Vec2) :
    ∃ st', ({st with anchor := some a}).drag_visual_node p = some st' ∧
      st'.highlight_center = p - a ∧
      st'.highlight_color = (1, 1, 0, 1) ∧
      st'.offset = some (p - a - st.loc) ∧
      st'.loc = st.loc ∧ st'.size = st.size ∧
      st'.transform = st.transform ∧ st'.anchor = some a :=
  ⟨_, drag_visual_node_eq _ a p rfl, rfl, rfl, rfl, rfl, rfl, rfl, rfl⟩

/-- Claim C4 counterexample: after begin-drag at `(10,10)` (anchor
`(60,60)`) and a move to `(40,40)`, cancelling via `reset_highlight`
does NOT clear the drag-session fields — `anchor` is still `(-50,-50)`
and `offset` still `(30,30)` — and a subsequent `update_location` still
commits the cancelled offset, moving the anchor position to `(90,90)`
even though it was never released at that spot. -/
theorem c4_counterexample_cancel_keeps_fields :
    ((((XYZAxis.init (60, 60) 50 true none).set_anchor (10, 10)).drag_visual_node
        (40, 40)).map XYZAxis.reset_highlight).map
        (fun s => (s.anchor, s.offset)) =
      some (some (-50, -50), some (30, 30)) ∧
    (((((XYZAxis.init (60, 60) 50 true none).set_anchor (10, 10)).drag_visual_node
        (40, 40)).map XYZAxis.reset_highlight).bind XYZAxis.update_location).map
        XYZAxis.loc = some (90, 90) ∧
    ((90, 90) : Vec2) ≠ ((60, 60) : Vec2) := by
  have hc : ((XYZAxis.init (60, 60) 50 true none).set_anchor (10, 10)).anchor =
      some ((10, 10) - (60, 60)) := by simp
  refine ⟨?_, ?_, ?_⟩
  · rw [drag_visual_node_eq _ ((10, 10) - (60, 60)) (40, 40) hc]
    norm_num [XYZAxis.reset_highlight, Prod.ext_iff]
  · rw [drag_visual_node_eq _ ((10, 10) - (60, 60)) (40, 40) hc]
    norm_num [XYZAxis.reset_highlight, XYZAxis.update_location, Prod.ext_iff]
  · norm_num [Prod.ext_iff]

/-- Claim C4 (amended): cancelling a drag via `reset_highlight` leaves
the committed anchor position unchanged and repositions the highlight at
the anchor with the translucent colour, but it does not destroy the drag
session: `anchor` and the pending `offset` keep their values, so a later
`update_location` would still commit the cancelled offset. -/
theorem c4_amended_cancel_restores_highlight_only (st : XYZAxis) :
    st.reset_highlight.loc = st.loc ∧
    st.reset_highlight.highlight_center = st.loc ∧
    st.reset_highlight.highlight_color = (1, 1, 0, 1 / 2) ∧
    st.reset_highlight.anchor = st.anchor ∧
    st.reset_highlight.offset = st.offset ∧
    st.reset_highlight.transform = st.transform :=
  ⟨rfl, rfl, rfl, rfl, rfl, rfl⟩

/-- Claim C5: a pointer-down whose screen position lies strictly outside
the highlight circle of radius `size` centred at the committed anchor
never begins a drag: the dispatch leaves the state unchanged and no
anchor offset is captured. -/
theorem c5_pointer_down_outside_no_drag (st : XYZAxis) (p : Vec2)
    (h : st.size * st.size <
      (p.1 - st.loc.1) * (p.1 - st.loc.1) + (p.2 - st.loc.2) * (p.2 - st.loc.2)) :
    st.on_pointer_down p = st ∧ (st.on_pointer_down p).anchor = st.anchor := by
  have hnot : ¬ ((p.1 - st.loc.1) * (p.1 - st.loc.1) +
      (p.2 - st.loc.2) * (p.2 - st.loc.2) ≤ st.size * st.size) := not_le.mpr h
  refine ⟨?_, ?_⟩ <;> simp [XYZAxis.on_pointer_down, hnot]

theorem c5_pointer_down_outside_no_drag_witness :
    ((XYZAxis.init (60, 60) 50 true none).size *
        (XYZAxis.init (60, 60) 50 true none).size <
      (200 - (XYZAxis.init (60, 60) 50 true none).loc.1) *
          (200 - (XYZAxis.init (60, 60) 50 true none).loc.1) +
        (60 - (XYZAxis.init (60, 60) 50 true none).loc.2) *
          (60 - (XYZAxis.init (60, 60) 50 true none).loc.2)) ∧
    ((XYZAxis.init (60, 60) 50 true none).on_pointer_down (200, 60) =
        XYZAxis.init (60, 60) 50 true none ∧
      ((XYZAxis.init (60, 60) 50 true none).on_pointer_down (200, 60)).anchor =
        (XYZAxis.init (60, 60) 50 true none).anchor) :=
  ⟨by norm_num, c5_pointer_down_outside_no_drag _ (200, 60) (by norm_num)⟩

/-- Claim C6 counterexample: on the freshly constructed widget (no drag
session active) a pointer-move crashes — `drag_visual_node` evaluates
`pos - None` and raises a `TypeError` (`none` here) — and a pointer-up
crashes too — `update_location` evaluates `tuple + 0` on the
construction-time tuple `loc` — instead of being silent no-ops. -/
theorem c6_counterexample_idle_events_raise :
    (XYZAxis.init (60, 60) 50 true none).drag_visual_node (40, 40) = none ∧
    (XYZAxis.init (60, 60) 50 true none).update_location = none :=
  ⟨rfl, rfl⟩

/-- Claim C6 (amended): with no drag session active, a pointer-move
always raises (`drag_visual_node` subtracts the cleared `None` anchor),
and a pointer-up raises on the pristine post-construction state (tuple
`loc` plus the integer-zero offset sentinel); only once a previous drag
has committed (so `loc` is a numpy array) is a pointer-up a no-op on the
committed anchor, highlight and (for a detached widget) transform,
merely re-clearing the already-cleared session fields. -/
theorem c6_amended_idle_events (st : XYZAxis) (p : Vec2) :
    ({st with anchor := none}).drag_visual_node p = none ∧
    ({st with offset := none, locIsArray := false}).update_location = none ∧
    ({st with
        offset := none, anchor := none, locIsArray := true,
        parent := none}).update_location =
      some { st with
              offset := none, anchor := none, locIsArray := true,
              parent := none } :=
  ⟨rfl, rfl, rfl⟩

/-- Claim C10: invariant of the drag feedback — after every
`drag_visual_node` the highlight centre equals `loc + offset`, so the
following `update_location` commits the anchor position to exactly the
last highlight centre shown to the user. -/
theorem c10_highlight_offset_invariant (st : XYZAxis) (a p : Vec2) :
    ∃ st1 d st2,
      ({st with anchor := some a}).drag_visual_node p = some st1 ∧
      st1.offset = some d ∧
      st1.highlight_center = st1.loc + d ∧
      st1.update_location = some st2 ∧
      st2.loc = st1.highlight_center := by
  refine ⟨_, p - a - st.loc, _, drag_visual_node_eq _ a p rfl, rfl, ?_, rfl, ?_⟩
  · show p - a = st.loc + (p - a - st.loc)
    abel
  · show ((⟨st.loc + (p - a - st.loc), true, st.size, st.seismic_coord_system,
      p - a, (1, 1, 0, 1), some a, some (p - a - st.loc), st.transform,
      st.parent⟩ : XYZAxis).updateAxis).loc = p - a
    rw [updateAxis_loc]
    abel_nf

/-- Claim C8: the linear (rotation-and-scale) part of the transform
rebuilt with the seismic convention equals the linear part of the
transform rebuilt with the convention off, pre-multiplied by
`scale(1, -1, -1)`; and with azimuth 0, elevation 0 (cosine/sine pairs
`(1, 0)`) and display size 50, the transform maps the homogeneous local
origin exactly to the anchor position under both convention settings. -/
theorem c8_seismic_linear_relation_and_origin (st : XYZAxis) (cam : Camera)
    (b : Bool) :
    linearPart ((({ st with
        seismic_coord_system := true,
        parent := some cam }).updateAxis).transform.matrix) =
      scale3Mat 1 (-1) (-1) *
        linearPart ((({ st with
          seismic_coord_system := false,
          parent := some cam }).updateAxis).transform.matrix) ∧
    (({ st with
        seismic_coord_system := b, size := 50,
        parent := some ⟨1, 0, 1, 0⟩ }).updateAxis).transform.mapPoint
        ![0, 0, 0, 1] =
      ![st.loc.1, st.loc.2, 0, 1] := by
  constructor
  · rw [updateAxis_transform_attached _ cam rfl,
      updateAxis_transform_attached _ cam rfl]
    simp only [Bool.false_eq_true, if_true, if_false, one_mul, mul_assoc]
    exact linearPart_flip_mul _
  · simpa using origin_maps_to_loc
      { st with seismic_coord_system := b, size := 50, parent := some ⟨1, 0, 1, 0⟩ }
      ⟨1, 0, 1, 0⟩ rfl

end SeismicCanvas
